import Mathlib

/-
  Verification of the Smart Todo task lifecycle automation engine and its
  frontend task views, as a shallow embedding in Lean 4.

  Sources embedded:
  * src/frontend/types/task.ts          — TaskStatus, Task shape
  * src/unnamed/part_002 (Home)         — derived task fields, handleUpdateTaskStatus
  * src/frontend/components/TaskList.tsx — per-status action buttons, Dashboard counts
  * src/frontend/components/Analytics.tsx — statusData, completionRate
  * src/frontend/components/EditTaskForm.tsx (TaskForm half) — zod taskSchema
  The backend job engine (Overdue Detector, Recurring Generator, Reminder
  Dispatcher) is referenced by the repository (README, start_celery.sh) but its
  Python sources are not in src/; those operations are modelled from the spec,
  as marked on each definition.
-/

set_option maxHeartbeats 1000000

namespace SmartTodo

/-- Task status, from src/frontend/types/task.ts:
`export type TaskStatus = 'ongoing' | 'success' | 'failure'`. -/
inductive TaskStatus where
  | ongoing
  | success
  | failure
deriving DecidableEq, Repr

/-- Stored task entity, per the data model (spec §3) and
src/frontend/types/task.ts. Timestamps are epoch milliseconds. -/
structure Task where
  id : Nat
  title : String
  description : String
  deadline : Int
  status : TaskStatus
  priority : Nat
  estimated_duration : Nat
  tags : List String
  created_at : Int
  updated_at : Int
  template_id : Option Nat
deriving DecidableEq, Repr

/-! ### Overdue Detector -/

/-- Modelled from the spec: the backend Celery job `mark_overdue_tasks`
(Overdue Detector, spec §4.2) is not under src/; per the spec, a single
conditional update "set status=failure WHERE id=X AND status=ongoing AND
deadline<now" applied to one task. -/
def checkAndMarkTask (now : Int) (t : Task) : Task :=
  if t.status = TaskStatus.ongoing ∧ t.deadline < now then
    { t with status := TaskStatus.failure }
  else t

/-- Modelled from the spec: one Overdue Detector pass `checkAndMark(now)`
(spec §4.2) over the whole store. -/
def checkAndMark (now : Int) (store : List Task) : List Task :=
  store.map (checkAndMarkTask now)

/-- Modelled from the spec: the number of tasks a `checkAndMark(now)` pass
would transition (its `transitionedCount` return value, spec §4.2). -/
def transitionedCount (now : Int) (store : List Task) : Nat :=
  (store.filter (fun t =>
    decide (t.status = TaskStatus.ongoing) && decide (t.deadline < now))).length

/-! ### Status update path (terminal-state guard) -/

/-- Modelled from the spec: error taxonomy entry for a rejected mutation on a
terminal task (spec §7). -/
inductive UpdateError where
  | TerminalStateViolation
deriving DecidableEq, Repr

/-- Modelled from the spec: the status-mutation operation behind the frontend
`handleUpdateTaskStatus` (src/unnamed/part_002 lines 94-103); the backend
endpoint is not under src/. Per spec §4.5, failure and success are terminal:
mutating a terminal task fails with `TerminalStateViolation`. -/
def updateTaskStatus (t : Task) (s : TaskStatus) : Except UpdateError Task :=
  if t.status = TaskStatus.ongoing then Except.ok { t with status := s }
  else Except.error UpdateError.TerminalStateViolation

/-- Modelled from the spec: applying a status update to the store at the first
task with the given id; returns the new store and the surfaced error, if any. -/
def applyStatusUpdate : List Task → Nat → TaskStatus → List Task × Option UpdateError
  | [], _, _ => ([], Option.none)
  | t :: ts, taskId, s =>
    if t.id = taskId then
      match updateTaskStatus t s with
      | Except.ok t2 => (t2 :: ts, Option.none)
      | Except.error e => (t :: ts, Option.some e)
    else
      let rest := applyStatusUpdate ts taskId s
      (t :: rest.1, rest.2)

/-- Per-status action buttons rendered by TaskList
(src/frontend/components/TaskList.tsx lines 148-165): the success / failure
buttons are rendered only when `task.status === 'ongoing'`. -/
def statusActions : TaskStatus → List TaskStatus
  | TaskStatus.ongoing => [TaskStatus.success, TaskStatus.failure]
  | _ => []

/-! ### Theorems: C1, C5, C2 -/

/-- Claim C1: for every task with status ongoing and deadline < now, after one
Overdue Detector pass `checkAndMark(now)` that task's status equals failure
(its image in the resulting store is the same task marked failure); hence every
ongoing task becomes failure within one scheduling interval of its deadline, at
the first pass whose `now` exceeds the deadline. -/
theorem c1_overdue_marked_failure (now : Int) (store : List Task) (t : Task)
    (ht : t ∈ store) (hs : t.status = TaskStatus.ongoing) (hd : t.deadline < now) :
    checkAndMarkTask now t ∈ checkAndMark now store ∧
    (checkAndMarkTask now t).status = TaskStatus.failure ∧
    checkAndMarkTask now t = { t with status := TaskStatus.failure } := by
  refine ⟨List.mem_map_of_mem _ ht, ?_, ?_⟩ <;>
    simp [checkAndMarkTask, hs, hd]

/-- Witness for C1: a concrete overdue ongoing task is marked failure by one
pass. -/
theorem c1_witness :
    let t : Task :=
      { id := 1, title := "t", description := "", deadline := 50,
        status := TaskStatus.ongoing, priority := 3, estimated_duration := 60,
        tags := [], created_at := 0, updated_at := 0, template_id := Option.none }
    checkAndMarkTask 100 t ∈ checkAndMark 100 [t] ∧
    (checkAndMarkTask 100 t).status = TaskStatus.failure ∧
    checkAndMarkTask 100 t = { t with status := TaskStatus.failure } := by
  exact c1_overdue_marked_failure 100 _ _ (List.mem_singleton.mpr rfl)
    (by decide) (by decide)

/-- Claim C5: the Overdue Detector is idempotent: run a second time with the
same `now` against the store left by the first call, it transitions zero tasks
and mutates nothing. -/
theorem c5_detector_idempotent (now : Int) (store : List Task) :
    transitionedCount now (checkAndMark now store) = 0 ∧
    checkAndMark now (checkAndMark now store) = checkAndMark now store := by
  constructor
  · simp only [transitionedCount, checkAndMark, List.filter_map, List.length_map,
      List.length_eq_zero, List.filter_eq_nil_iff]
    intro t _
    by_cases h : t.status = TaskStatus.ongoing ∧ t.deadline < now <;>
      simp [Function.comp, checkAndMarkTask, h]
  · simp only [checkAndMark, List.map_map]
    refine List.map_congr_left fun t _ => ?_
    by_cases h : t.status = TaskStatus.ongoing ∧ t.deadline < now <;>
      simp [Function.comp, checkAndMarkTask, h]

/-- Claim C2: for every task whose stored status is success or failure, a
status mutation through the automation path is rejected with
`TerminalStateViolation` and the stored status (indeed the whole store) is
unchanged; the mutation is never silently applied. -/
theorem c2_terminal_state_violation (store : List Task) (taskId : Nat)
    (s : TaskStatus)
    (h : ∀ t ∈ store, t.id = taskId →
      t.status = TaskStatus.success ∨ t.status = TaskStatus.failure) :
    (applyStatusUpdate store taskId s).1 = store ∧
    ((∃ t ∈ store, t.id = taskId) →
      (applyStatusUpdate store taskId s).2 =
        Option.some UpdateError.TerminalStateViolation) := by
  induction store with
  | nil => exact ⟨rfl, by rintro ⟨t, ht, -⟩; cases ht⟩
  | cons t ts ih =>
    by_cases hid : t.id = taskId
    · have hterm := h t (List.mem_cons_self t ts) hid
      have hne : ¬ t.status = TaskStatus.ongoing := by
        rcases hterm with h1 | h1 <;> simp [h1]
      constructor
      · simp [applyStatusUpdate, hid, updateTaskStatus, hne]
      · intro _
        simp [applyStatusUpdate, hid, updateTaskStatus, hne]
    · have ih2 := ih (fun u hu hu2 => h u (List.mem_cons_of_mem _ hu) hu2)
      constructor
      · simp [applyStatusUpdate, hid, ih2.1]
      · rintro ⟨u, hu, hu2⟩
        rcases List.mem_cons.mp hu with rfl | hu3
        · exact absurd hu2 hid
        · simp [applyStatusUpdate, hid, ih2.2 ⟨u, hu3, hu2⟩]

/-- Witness for C2: setting a concrete failure task back to ongoing is rejected
with `TerminalStateViolation`, store unchanged. -/
theorem c2_witness :
    let t : Task :=
      { id := 7, title := "t", description := "", deadline := 50,
        status := TaskStatus.failure, priority := 3, estimated_duration := 60,
        tags := [], created_at := 0, updated_at := 0, template_id := Option.none }
    (applyStatusUpdate [t] 7 TaskStatus.ongoing).1 = [t] ∧
    ((∃ u ∈ [t], u.id = 7) →
      (applyStatusUpdate [t] 7 TaskStatus.ongoing).2 =
        Option.some UpdateError.TerminalStateViolation) := by
  exact c2_terminal_state_violation _ 7 TaskStatus.ongoing (by decide)

/-! ### Recurring Generator -/

/-- Calendar date-time used by the generator: year, month (1-12), day and
second of the day. -/
structure DateTime where
  year : Int
  month : Nat
  day : Nat
  secOfDay : Nat
deriving DecidableEq, Repr

/-- Gregorian leap year test. -/
def isLeap (y : Int) : Bool :=
  (decide (y % 4 = 0) && !(decide (y % 100 = 0))) || decide (y % 400 = 0)

/-- Number of days in a month of a given year. -/
def daysInMonth (year : Int) (month : Nat) : Nat :=
  if month = 2 then (if isLeap year then 29 else 28)
  else if month = 4 ∨ month = 6 ∨ month = 9 ∨ month = 11 then 30
  else 31

/-- Advance a calendar date-time by one day. -/
def addDay (d : DateTime) : DateTime :=
  if d.day < daysInMonth d.year d.month then { d with day := d.day + 1 }
  else if d.month < 12 then { d with month := d.month + 1, day := 1 }
  else { d with year := d.year + 1, month := 1, day := 1 }

/-- Advance a calendar date-time by a number of days. -/
def addDaysN : Nat → DateTime → DateTime
  | 0, d => d
  | n + 1, d => addDaysN n (addDay d)

/-- Advance a calendar date-time by a number of seconds, rolling over days. -/
def addSecs (n : Nat) (d : DateTime) : DateTime :=
  let total := d.secOfDay + n
  addDaysN (total / 86400) { d with secOfDay := total % 86400 }

/-- Advance a calendar date-time by one calendar month, clamping the day to the
length of the target month (calendar-aware, not merely +24h x 30). -/
def addMonth (d : DateTime) : DateTime :=
  if d.month < 12 then
    { d with month := d.month + 1,
             day := min d.day (daysInMonth d.year (d.month + 1)) }
  else
    { d with year := d.year + 1, month := 1,
             day := min d.day (daysInMonth (d.year + 1) 1) }

/-- Lexicographic order on calendar date-times. -/
def DateTime.le (a b : DateTime) : Bool :=
  decide (a.year < b.year) ||
  (decide (a.year = b.year) &&
    (decide (a.month < b.month) ||
     (decide (a.month = b.month) &&
       (decide (a.day < b.day) ||
        (decide (a.day = b.day) && decide (a.secOfDay ≤ b.secOfDay))))))

/-- Recurrence pattern of a task or template (spec §3, and the TaskForm
select options daily / weekly / monthly). -/
inductive RecurrencePattern where
  | none
  | daily
  | weekly
  | monthly
deriving DecidableEq, Repr

/-- Recurrence template entity (spec §3). -/
structure RecurrenceTemplate where
  id : Nat
  title : String
  description : String
  priority : Nat
  estimated_duration : Nat
  recurrence_pattern : RecurrencePattern
  next_due_at : DateTime
  active : Bool
deriving DecidableEq, Repr

/-- A task instance as created by the Recurring Generator (spec §4.3):
status ongoing, template_id set, deadline derived from the due time. -/
structure NewTask where
  title : String
  description : String
  priority : Nat
  estimated_duration : Nat
  deadline : DateTime
  status : TaskStatus
  template_id : Nat
deriving DecidableEq, Repr

/-- Modelled from the spec: the candidate new Task for a due template
(spec §4.3): deadline derived from `next_due_at` plus the template's estimated
duration window, status ongoing, template_id = template.id. -/
def taskFromTemplate (tpl : RecurrenceTemplate) : NewTask :=
  { title := tpl.title
    description := tpl.description
    priority := tpl.priority
    estimated_duration := tpl.estimated_duration
    deadline := addSecs (60 * tpl.estimated_duration) tpl.next_due_at
    status := TaskStatus.ongoing
    template_id := tpl.id }

/-- Modelled from the spec: the candidate next `next_due_at` (spec §4.3):
the current value advanced by one calendar unit of the recurrence_pattern
(+1 day, +1 week, or +1 calendar month); an unknown pattern yields none
(`TemplateInvalid`: skip this template). -/
def advanceDue : RecurrencePattern → DateTime → Option DateTime
  | RecurrencePattern.daily, d => Option.some (addDay d)
  | RecurrencePattern.weekly, d => Option.some (addDaysN 7 d)
  | RecurrencePattern.monthly, d => Option.some (addMonth d)
  | RecurrencePattern.none, _ => Option.none

/-- Modelled from the spec: one Recurring Generator visit of a single template
during `generateDue(now)` (spec §4.3, backend `process_recurring_tasks` is not
under src/): if the template is active and due, advance `next_due_at` and
create the new task. -/
def generateTemplate (now : DateTime) (tpl : RecurrenceTemplate) :
    RecurrenceTemplate × List NewTask :=
  if tpl.active = true ∧ DateTime.le tpl.next_due_at now = true then
    match advanceDue tpl.recurrence_pattern tpl.next_due_at with
    | Option.some next => ({ tpl with next_due_at := next }, [taskFromTemplate tpl])
    | Option.none => (tpl, [])
  else (tpl, [])

/-- Modelled from the spec: one full Recurring Generator pass `generateDue(now)`
over the template store, returning the updated templates and the created
tasks. -/
def generateDue (now : DateTime) :
    List RecurrenceTemplate → List RecurrenceTemplate × List NewTask
  | [] => ([], [])
  | tpl :: tpls =>
    let r := generateTemplate now tpl
    let rest := generateDue now tpls
    (r.1 :: rest.1, r.2 ++ rest.2)

/-- Claim C3: for an active daily template that is due (in particular
`next_due_at = now - 1s`), one Generator pass creates exactly one new Task with
status ongoing and advances the template's `next_due_at` by one day; in
general the advance is one calendar unit of the pattern (+7 days for weekly,
+1 calendar month for monthly — clamped at month ends, e.g. Jan 31 + 1 month =
Feb 28, not merely +24h x 31). -/
theorem c3_daily_template_generates_one (now : DateTime) (tpl : RecurrenceTemplate)
    (ha : tpl.active = true)
    (hp : tpl.recurrence_pattern = RecurrencePattern.daily)
    (hd : DateTime.le tpl.next_due_at now = true) :
    (generateDue now [tpl]).2 = [taskFromTemplate tpl] ∧
    (taskFromTemplate tpl).status = TaskStatus.ongoing ∧
    (generateDue now [tpl]).1 = [{ tpl with next_due_at := addDay tpl.next_due_at }] ∧
    (∀ d : DateTime, advanceDue RecurrencePattern.weekly d = Option.some (addDaysN 7 d)) ∧
    (∀ d : DateTime, advanceDue RecurrencePattern.monthly d = Option.some (addMonth d)) ∧
    addMonth { year := 2025, month := 1, day := 31, secOfDay := 0 } =
      { year := 2025, month := 2, day := 28, secOfDay := 0 } := by
  refine ⟨?_, rfl, ?_, fun d => rfl, fun d => rfl, by decide⟩ <;>
    simp [generateDue, generateTemplate, ha, hp, hd, advanceDue]

/-- Witness for C3: a concrete active daily template due one second ago
produces exactly one ongoing task and its `next_due_at` moves one day ahead. -/
theorem c3_witness :
    let tpl : RecurrenceTemplate :=
      { id := 4, title := "standup", description := "", priority := 2,
        estimated_duration := 15,
        recurrence_pattern := RecurrencePattern.daily,
        next_due_at := { year := 2025, month := 3, day := 10, secOfDay := 3599 },
        active := true }
    let now : DateTime := { year := 2025, month := 3, day := 10, secOfDay := 3600 }
    (generateDue now [tpl]).2 = [taskFromTemplate tpl] ∧
    (taskFromTemplate tpl).status = TaskStatus.ongoing ∧
    (generateDue now [tpl]).1 = [{ tpl with next_due_at := addDay tpl.next_due_at }] ∧
    (∀ d : DateTime, advanceDue RecurrencePattern.weekly d = Option.some (addDaysN 7 d)) ∧
    (∀ d : DateTime, advanceDue RecurrencePattern.monthly d = Option.some (addMonth d)) ∧
    addMonth { year := 2025, month := 1, day := 31, secOfDay := 0 } =
      { year := 2025, month := 2, day := 28, secOfDay := 0 } := by
  exact c3_daily_template_generates_one _ _ rfl rfl (by decide)

/-! ### Generator race model: two fully concurrent invocations -/

/-- Shared store state seen by racing generator invocations: the template's
`next_due_at` (abstracted to a value of type `T`) and the number of tasks
created for this template's current period. -/
structure SharedState (T : Type) where
  due : T
  created : Nat
deriving DecidableEq, Repr

/-- Local state of one generator invocation: program counter (0 = scan,
1 = CAS, 2 = create, 3 = done), the observed `next_due_at`, and whether its
CAS succeeded. -/
structure ProcState (T : Type) where
  pc : Nat
  obs : Option T
  casOk : Bool
deriving DecidableEq, Repr

/-- Modelled from the spec: one atomic step of a Recurring Generator invocation
under the concurrency guard of spec §4.3: scan reads the template only while it
is due; the CAS "set next_due_at=candidate WHERE next_due_at=observed" advances
the schedule only if unchanged; only a CAS winner creates the task; a lost CAS
is skipped (`ConcurrentModificationLost`). -/
def procStep {T : Type} [DecidableEq T] (isDue : T → Bool) (adv : T → T)
    (s : SharedState T) (p : ProcState T) : SharedState T × ProcState T :=
  match p.pc with
  | 0 =>
    if isDue s.due then (s, { p with pc := 1, obs := Option.some s.due })
    else (s, { p with pc := 3 })
  | 1 =>
    match p.obs with
    | Option.some o =>
      if s.due = o then
        ({ s with due := adv o }, { p with pc := 2, casOk := true })
      else (s, { p with pc := 2, casOk := false })
    | Option.none => (s, { p with pc := 3 })
  | 2 =>
    if p.casOk then ({ s with created := s.created + 1 }, { p with pc := 3 })
    else (s, { p with pc := 3 })
  | _ => (s, p)

/-- Global state of the race: the shared store plus both invocations. -/
structure RaceState (T : Type) where
  shared : SharedState T
  proc1 : ProcState T
  proc2 : ProcState T
deriving DecidableEq, Repr

/-- One scheduler choice: run one atomic step of invocation 1 (`true`) or
invocation 2 (`false`). -/
def raceStep {T : Type} [DecidableEq T] (isDue : T → Bool) (adv : T → T)
    (b : Bool) (st : RaceState T) : RaceState T :=
  if b then
    let r := procStep isDue adv st.shared st.proc1
    { st with shared := r.1, proc1 := r.2 }
  else
    let r := procStep isDue adv st.shared st.proc2
    { st with shared := r.1, proc2 := r.2 }

/-- Run the race under an arbitrary interleaving schedule. -/
def raceRun {T : Type} [DecidableEq T] (isDue : T → Bool) (adv : T → T) :
    List Bool → RaceState T → RaceState T
  | [], st => st
  | b :: bs, st => raceRun isDue adv bs (raceStep isDue adv b st)

/-- Initial race state: the template is at its pre-race `next_due_at` value,
no task created yet, both invocations about to scan. -/
def raceInit {T : Type} (v0 : T) : RaceState T :=
  { shared := { due := v0, created := 0 }
    proc1 := { pc := 0, obs := Option.none, casOk := false }
    proc2 := { pc := 0, obs := Option.none, casOk := false } }

/-- An invocation that has not yet reached its CAS: it either has not scanned,
or observed the pre-race value. -/
def preProc {T : Type} (v0 : T) (p : ProcState T) : Prop :=
  p.pc = 0 ∨ (p.pc = 1 ∧ p.obs = Option.some v0)

/-- An invocation that cannot create a task any more without losing the CAS
first: not yet scanned, observed the stale pre-race value, lost its CAS, or
done without having created. -/
def loseProc {T : Type} (v0 : T) (p : ProcState T) : Prop :=
  p.pc = 0 ∨ (p.pc = 1 ∧ p.obs = Option.some v0) ∨
  (p.pc = 2 ∧ p.casOk = false) ∨ p.pc = 3

/-- Inductive invariant of the race: either nobody has won the CAS yet, or one
invocation won it (advancing `next_due_at` exactly once) and is about to
create, or the winner has created the single task; the other invocation can
never create. -/
def raceInv {T : Type} (adv : T → T) (v0 : T) (st : RaceState T) : Prop :=
  (st.shared.due = v0 ∧ st.shared.created = 0 ∧
    preProc v0 st.proc1 ∧ preProc v0 st.proc2) ∨
  (st.shared.due = adv v0 ∧ st.shared.created = 0 ∧
    ((st.proc1.pc = 2 ∧ st.proc1.casOk = true ∧ loseProc v0 st.proc2) ∨
     (st.proc2.pc = 2 ∧ st.proc2.casOk = true ∧ loseProc v0 st.proc1))) ∨
  (st.shared.due = adv v0 ∧ st.shared.created = 1 ∧
    ((st.proc1.pc = 3 ∧ loseProc v0 st.proc2) ∨
     (st.proc2.pc = 3 ∧ loseProc v0 st.proc1)))

theorem preProc_lose {T : Type} (v0 : T) (p : ProcState T)
    (h : preProc v0 p) : loseProc v0 p :=
  h.elim Or.inl (fun h2 => Or.inr (Or.inl h2))

theorem procStep_preserve_pre {T : Type} [DecidableEq T] (isDue : T → Bool)
    (adv : T → T) (v0 : T) (hdue : isDue v0 = true)
    (s : SharedState T) (hs : s.due = v0)
    (p : ProcState T) (hp : preProc v0 p) :
    ((procStep isDue adv s p).1 = s ∧ preProc v0 (procStep isDue adv s p).2) ∨
    ((procStep isDue adv s p).1 = { s with due := adv v0 } ∧
      (procStep isDue adv s p).2.pc = 2 ∧
      (procStep isDue adv s p).2.casOk = true) := by
  rcases hp with h0 | ⟨h1, hobs⟩
  · left
    constructor
    · simp [procStep, h0, hs, hdue]
    · simp only [procStep, h0, hs, hdue, if_true]
      right
      exact ⟨rfl, rfl⟩
  · right
    refine ⟨?_, ?_, ?_⟩ <;> simp [procStep, h1, hobs, hs]

theorem procStep_preserve_lose {T : Type} [DecidableEq T] (isDue : T → Bool)
    (adv : T → T) (v0 : T)
    (hnd : isDue (adv v0) = false) (hne : adv v0 ≠ v0)
    (s : SharedState T) (hs : s.due = adv v0)
    (p : ProcState T) (hp : loseProc v0 p) :
    (procStep isDue adv s p).1 = s ∧
    loseProc v0 (procStep isDue adv s p).2 := by
  rcases hp with h0 | ⟨h1, hobs⟩ | ⟨h2, hok⟩ | h3
  · constructor
    · simp [procStep, h0, hs, hnd]
    · simp only [procStep, h0, hs, hnd, Bool.false_eq_true, if_false]
      right; right; right
      rfl
  · constructor
    · simp [procStep, h1, hobs, hs, hne]
    · simp only [procStep, h1, hobs, hs]
      rw [if_neg (fun h => hne h)]
      right; right; left
      exact ⟨rfl, rfl⟩
  · constructor
    · simp [procStep, h2, hok]
    · simp only [procStep, h2, hok, Bool.false_eq_true, if_false]
      right; right; right
      rfl
  · have hpc0 : ¬ (p.pc = 0) := by omega
    have hpc1 : ¬ (p.pc = 1) := by omega
    have hpc2 : ¬ (p.pc = 2) := by omega
    constructor
    · simp [procStep, hpc0, hpc1, hpc2]
    · right; right; right
      simp [procStep, hpc0, hpc1, hpc2, h3]

theorem procStep_done {T : Type} [DecidableEq T] (isDue : T → Bool)
    (adv : T → T) (s : SharedState T) (p : ProcState T) (h3 : p.pc = 3) :
    procStep isDue adv s p = (s, p) := by
  have hpc0 : ¬ (p.pc = 0) := by omega
  have hpc1 : ¬ (p.pc = 1) := by omega
  have hpc2 : ¬ (p.pc = 2) := by omega
  simp [procStep, hpc0, hpc1, hpc2]

theorem procStep_create {T : Type} [DecidableEq T] (isDue : T → Bool)
    (adv : T → T) (s : SharedState T) (p : ProcState T)
    (h2 : p.pc = 2) (hok : p.casOk = true) :
    procStep isDue adv s p =
      ({ s with created := s.created + 1 }, { p with pc := 3 }) := by
  simp [procStep, h2, hok]

theorem raceInv_step {T : Type} [DecidableEq T] (isDue : T → Bool)
    (adv : T → T) (v0 : T)
    (hdue : isDue v0 = true) (hnd : isDue (adv v0) = false) (hne : adv v0 ≠ v0)
    (b : Bool) (st : RaceState T) (h : raceInv adv v0 st) :
    raceInv adv v0 (raceStep isDue adv b st) := by
  rcases h with ⟨hdu, hcr, hp1, hp2⟩ | ⟨hdu, hcr, hw⟩ | ⟨hdu, hcr, hw⟩
  · cases b
    · rcases procStep_preserve_pre isDue adv v0 hdue st.shared hdu st.proc2 hp2
        with ⟨heq, hpre⟩ | ⟨heq, hpc, hok⟩
      · left
        refine ⟨?_, ?_, ?_, ?_⟩ <;> simp [raceStep, heq, hdu, hcr, hp1, hpre]
      · right; left
        refine ⟨?_, ?_, ?_⟩
        · simp [raceStep, heq]
        · simp [raceStep, heq, hcr]
        · right
          refine ⟨?_, ?_, ?_⟩ <;>
            simp [raceStep, hpc, hok, preProc_lose v0 st.proc1 hp1]
    · rcases procStep_preserve_pre isDue adv v0 hdue st.shared hdu st.proc1 hp1
        with ⟨heq, hpre⟩ | ⟨heq, hpc, hok⟩
      · left
        refine ⟨?_, ?_, ?_, ?_⟩ <;> simp [raceStep, heq, hdu, hcr, hp2, hpre]
      · right; left
        refine ⟨?_, ?_, ?_⟩
        · simp [raceStep, heq]
        · simp [raceStep, heq, hcr]
        · left
          refine ⟨?_, ?_, ?_⟩ <;>
            simp [raceStep, hpc, hok, preProc_lose v0 st.proc2 hp2]
  · rcases hw with ⟨hpc, hok, hlose⟩ | ⟨hpc, hok, hlose⟩
    · cases b
      · have hl := procStep_preserve_lose isDue adv v0 hnd hne st.shared hdu
          st.proc2 hlose
        right; left
        refine ⟨?_, ?_, ?_⟩
        · simp [raceStep, hl.1, hdu]
        · simp [raceStep, hl.1, hcr]
        · left
          refine ⟨?_, ?_, ?_⟩ <;> simp [raceStep, hpc, hok, hl.2]
      · have hc := procStep_create isDue adv st.shared st.proc1 hpc hok
        right; right
        refine ⟨?_, ?_, ?_⟩
        · simp [raceStep, hc, hdu]
        · simp [raceStep, hc, hcr]
        · left
          refine ⟨?_, ?_⟩ <;> simp [raceStep, hc, hlose]
    · cases b
      · have hc := procStep_create isDue adv st.shared st.proc2 hpc hok
        right; right
        refine ⟨?_, ?_, ?_⟩
        · simp [raceStep, hc, hdu]
        · simp [raceStep, hc, hcr]
        · right
          refine ⟨?_, ?_⟩ <;> simp [raceStep, hc, hlose]
      · have hl := procStep_preserve_lose isDue adv v0 hnd hne st.shared hdu
          st.proc1 hlose
        right; left
        refine ⟨?_, ?_, ?_⟩
        · simp [raceStep, hl.1, hdu]
        · simp [raceStep, hl.1, hcr]
        · right
          refine ⟨?_, ?_, ?_⟩ <;> simp [raceStep, hpc, hok, hl.2]
  · rcases hw with ⟨hpc, hlose⟩ | ⟨hpc, hlose⟩
    · cases b
      · have hl := procStep_preserve_lose isDue adv v0 hnd hne st.shared hdu
          st.proc2 hlose
        right; right
        refine ⟨?_, ?_, ?_⟩
        · simp [raceStep, hl.1, hdu]
        · simp [raceStep, hl.1, hcr]
        · left
          refine ⟨?_, ?_⟩ <;> simp [raceStep, hpc, hl.2]
      · have hd := procStep_done isDue adv st.shared st.proc1 hpc
        right; right
        refine ⟨?_, ?_, ?_⟩
        · simp [raceStep, hd, hdu]
        · simp [raceStep, hd, hcr]
        · left
          refine ⟨?_, ?_⟩ <;> simp [raceStep, hd, hpc, hlose]
    · cases b
      · have hd := procStep_done isDue adv st.shared st.proc2 hpc
        right; right
        refine ⟨?_, ?_, ?_⟩
        · simp [raceStep, hd, hdu]
        · simp [raceStep, hd, hcr]
        · right
          refine ⟨?_, ?_⟩ <;> simp [raceStep, hd, hpc, hlose]
      · have hl := procStep_preserve_lose isDue adv v0 hnd hne st.shared hdu
          st.proc1 hlose
        right; right
        refine ⟨?_, ?_, ?_⟩
        · simp [raceStep, hl.1, hdu]
        · simp [raceStep, hl.1, hcr]
        · right
          refine ⟨?_, ?_⟩ <;> simp [raceStep, hpc, hl.2]

theorem raceInv_run {T : Type} [DecidableEq T] (isDue : T → Bool)
    (adv : T → T) (v0 : T)
    (hdue : isDue v0 = true) (hnd : isDue (adv v0) = false) (hne : adv v0 ≠ v0)
    (sched : List Bool) (st : RaceState T) (h : raceInv adv v0 st) :
    raceInv adv v0 (raceRun isDue adv sched st) := by
  induction sched generalizing st with
  | nil => exact h
  | cons b bs ih =>
    exact ih _ (raceInv_step isDue adv v0 hdue hnd hne b st h)

/-- Claim C4: under two fully concurrent Recurring Generator invocations
scanning the same due template, for every interleaving schedule after which
both invocations have finished, exactly one new Task was created and the
template's `next_due_at` advanced by exactly one period from its pre-race
value, not two; a lost CAS means no duplicate task. -/
theorem c4_race_one_task {T : Type} [DecidableEq T] (isDue : T → Bool)
    (adv : T → T) (v0 : T) (sched : List Bool)
    (hdue : isDue v0 = true) (hnd : isDue (adv v0) = false) (hne : adv v0 ≠ v0)
    (hdone1 : (raceRun isDue adv sched (raceInit v0)).proc1.pc = 3)
    (hdone2 : (raceRun isDue adv sched (raceInit v0)).proc2.pc = 3) :
    (raceRun isDue adv sched (raceInit v0)).shared.created = 1 ∧
    (raceRun isDue adv sched (raceInit v0)).shared.due = adv v0 := by
  have hinit : raceInv adv v0 (raceInit (T := T) v0) := by
    left
    exact ⟨rfl, rfl, Or.inl rfl, Or.inl rfl⟩
  have hinv := raceInv_run isDue adv v0 hdue hnd hne sched _ hinit
  rcases hinv with ⟨-, -, hp1, hp2⟩ | ⟨-, -, hw⟩ | ⟨hdu, hcr, -⟩
  · rcases hp1 with h0 | ⟨h1, -⟩ <;> omega
  · rcases hw with ⟨hpc, -, -⟩ | ⟨hpc, -, -⟩ <;> omega
  · exact ⟨hcr, hdu⟩

/-- Witness for C4: a concrete fully concurrent schedule over a daily template
(both invocations scan before either CAS) creates exactly one task and
advances `next_due_at` by one day. -/
theorem c4_witness :
    let v0 : DateTime := { year := 2025, month := 3, day := 10, secOfDay := 3599 }
    let now0 : DateTime := { year := 2025, month := 3, day := 10, secOfDay := 3600 }
    let isDue : DateTime → Bool := fun d => DateTime.le d now0
    let sched : List Bool := [true, false, true, false, true, false]
    (raceRun isDue addDay sched (raceInit v0)).shared.created = 1 ∧
    (raceRun isDue addDay sched (raceInit v0)).shared.due = addDay v0 := by
  exact c4_race_one_task _ addDay _ _ (by decide) (by decide) (by decide)
    (by decide) (by decide)

/-! ### Reminder Dispatcher -/

/-- Modelled from the spec: whether the lead-time threshold `t` before the
deadline has been crossed at time `now` (spec §4.4): time-to-deadline is at
most `t`. -/
def thresholdCrossed (now deadline t : Int) : Bool :=
  decide (deadline - now ≤ t)

/-- Modelled from the spec: whether threshold `t` is not yet recorded in the
`last_reminder_sent_at` marker, compared by threshold value, not wall time
(spec §4.4): thresholds decrease as the deadline approaches, so `t` is new
exactly when it is below the recorded marker. -/
def thresholdEligible (marker : Option Int) (t : Int) : Bool :=
  match marker with
  | Option.none => true
  | Option.some m => decide (t < m)

/-- Modelled from the spec: the threshold the Dispatcher signals for one task
on this tick — the first configured threshold that is crossed and not yet
recorded — if any. -/
def nextReminder (thresholds : List Int) (now deadline : Int)
    (marker : Option Int) : Option Int :=
  match thresholds.filter
      (fun t => thresholdCrossed now deadline t && thresholdEligible marker t) with
  | [] => Option.none
  | t :: _ => Option.some t

/-- Modelled from the spec: one Dispatcher visit of a single task during
`dispatchDue(now, thresholds)` (spec §4.4; backend `send_deadline_reminders`
is not under src/), with a Notifier whose send succeeds: returns the sent
notification's threshold (if any) and the new marker; the crossed threshold is
recorded only on a successful send. -/
def dispatchTask (thresholds : List Int) (now deadline : Int)
    (marker : Option Int) : Option Int × Option Int :=
  match nextReminder thresholds now deadline marker with
  | Option.some t => (Option.some t, Option.some t)
  | Option.none => (Option.none, marker)

/-- Modelled from the spec: repeated Dispatcher ticks over a sequence of tick
times for one task, threading the persisted marker; returns every sent
notification's threshold, in order, plus the final marker. -/
def runTicks (thresholds : List Int) (deadline : Int) :
    List Int → Option Int → List Int × Option Int
  | [], marker => ([], marker)
  | now :: rest, marker =>
    let d := dispatchTask thresholds now deadline marker
    let r := runTicks thresholds deadline rest d.2
    (d.1.toList ++ r.1, r.2)

theorem nextReminder_eligible (thresholds : List Int) (now deadline : Int)
    (marker : Option Int) (t : Int)
    (h : nextReminder thresholds now deadline marker = Option.some t) :
    thresholdEligible marker t = true := by
  unfold nextReminder at h
  rcases hf : thresholds.filter
      (fun t => thresholdCrossed now deadline t && thresholdEligible marker t)
    with - | ⟨t2, ts⟩
  · rw [hf] at h
    cases h
  · rw [hf] at h
    have ht2 : t2 ∈ thresholds.filter
        (fun t => thresholdCrossed now deadline t && thresholdEligible marker t) := by
      rw [hf]
      exact List.mem_cons_self t2 ts
    have hp := (List.mem_filter.mp ht2).2
    cases h
    simp only [Bool.and_eq_true] at hp
    exact hp.2

theorem thresholdEligible_trans (marker : Option Int) (t x : Int)
    (ht : thresholdEligible marker t = true) (hx : x < t) :
    thresholdEligible marker x = true := by
  cases marker with
  | none => rfl
  | some m =>
    simp only [thresholdEligible, decide_eq_true_eq] at ht ⊢
    omega

theorem runTicks_sent_lt (thresholds : List Int) (deadline : Int) :
    ∀ (ticks : List Int) (marker : Option Int),
      (∀ x ∈ (runTicks thresholds deadline ticks marker).1,
        thresholdEligible marker x = true) ∧
      List.Pairwise (fun a b => b < a)
        (runTicks thresholds deadline ticks marker).1 := by
  intro ticks
  induction ticks with
  | nil =>
    intro marker
    constructor
    · intro x hx
      simp [runTicks] at hx
    · simp [runTicks]
  | cons now rest ih =>
    intro marker
    rcases hn : nextReminder thresholds now deadline marker with - | t
    · have hred : (runTicks thresholds deadline (now :: rest) marker).1 =
          (runTicks thresholds deadline rest marker).1 := by
        simp [runTicks, dispatchTask, hn]
      rw [hred]
      exact ih marker
    · have hred : (runTicks thresholds deadline (now :: rest) marker).1 =
          t :: (runTicks thresholds deadline rest (Option.some t)).1 := by
        simp [runTicks, dispatchTask, hn]
      rw [hred]
      have helig := nextReminder_eligible thresholds now deadline marker t hn
      have htail := ih (Option.some t)
      have htail_lt : ∀ x ∈ (runTicks thresholds deadline rest (Option.some t)).1,
          x < t := by
        intro x hx
        have := htail.1 x hx
        simpa [thresholdEligible] using this
      constructor
      · intro x hx
        rcases List.mem_cons.mp hx with rfl | hx2
        · exact helig
        · exact thresholdEligible_trans marker t x helig (htail_lt x hx2)
      · exact List.pairwise_cons.mpr ⟨fun x hx => htail_lt x hx, htail.2⟩

/-- Claim C6: for every task and configured threshold set, across arbitrary
repeated Dispatcher ticks with successful delivery, the sent notifications
carry pairwise distinct thresholds — at most one notification per
(task, threshold) pair; once the marker commits, no re-send for that threshold
ever occurs. -/
theorem c6_reminder_at_most_once (thresholds : List Int) (deadline : Int)
    (ticks : List Int) :
    ((runTicks thresholds deadline ticks Option.none).1).Nodup := by
  have h := (runTicks_sent_lt thresholds deadline ticks Option.none).2
  exact h.imp fun hba => ne_of_gt hba

/-! ### Status transition invariant -/

/-- Claim C7: status transitions are monotonic. For a task already terminal
(success or failure): the Overdue Detector leaves it untouched, the status
mutation path rejects every transition with `TerminalStateViolation`, and the
frontend renders no status action button for it; moreover the only transition
the Detector ever performs on any task is ongoing → failure. -/
theorem c7_status_monotonic (t : Task)
    (h : t.status = TaskStatus.success ∨ t.status = TaskStatus.failure) :
    (∀ now, checkAndMarkTask now t = t) ∧
    (∀ s, updateTaskStatus t s =
      Except.error UpdateError.TerminalStateViolation) ∧
    statusActions t.status = [] ∧
    (∀ now (u : Task), (checkAndMarkTask now u).status = u.status ∨
      (u.status = TaskStatus.ongoing ∧
        (checkAndMarkTask now u).status = TaskStatus.failure)) := by
  have hne : ¬ t.status = TaskStatus.ongoing := by
    rcases h with h | h <;> simp [h]
  refine ⟨?_, ?_, ?_, ?_⟩
  · intro now
    simp [checkAndMarkTask, hne]
  · intro s
    simp [updateTaskStatus, hne]
  · rcases h with h | h <;> simp [statusActions, h]
  · intro now u
    by_cases hc : u.status = TaskStatus.ongoing ∧ u.deadline < now
    · right
      exact ⟨hc.1, by simp [checkAndMarkTask, hc]⟩
    · left
      simp [checkAndMarkTask, hc]

/-- Witness for C7: a concrete success task is untouched by the Detector,
rejected by the mutation path, and offered no status action. -/
theorem c7_witness :
    let t : Task :=
      { id := 9, title := "done", description := "", deadline := 10,
        status := TaskStatus.success, priority := 1, estimated_duration := 5,
        tags := [], created_at := 0, updated_at := 0, template_id := Option.none }
    checkAndMarkTask 99 t = t ∧
    updateTaskStatus t TaskStatus.ongoing =
      Except.error UpdateError.TerminalStateViolation ∧
    statusActions t.status = [] := by
  intro t
  have h := c7_status_monotonic t (Or.inl rfl)
  exact ⟨h.1 99, h.2.1 TaskStatus.ongoing, h.2.2.1⟩

/-! ### Frontend: task form validation -/

/-- Input to the task creation form (`TaskFormData` in
src/frontend/types/task.ts). `deadline` is the epoch-millisecond value of the
JS Date; the numeric fields are rationals, since JS numbers need not be
integers. -/
structure TaskFormInput where
  title : String
  description : String
  deadline : Int
  priority : ℚ
  estimated_duration : ℚ
  tags : List String
  is_recurring : Bool
  recurrence_pattern : String
deriving DecidableEq, Repr

/-- The zod validation schema `taskSchema` of the task creation form
(src/frontend/components/EditTaskForm.tsx, TaskForm half, lines 253-262).
`schemaNow` is the epoch-ms value of the `new Date()` captured when the form
module evaluated the schema. Faithful zod semantics: `z.string().min(1)` /
`.max(n)` bound the length; `z.date().min(d)` rejects only dates strictly
before `d` (its too_small check is `input < d`, inclusive bound);
`z.number().min(1).max(5)` bounds the number without requiring an integer;
`z.array(z.string())`, `z.boolean()` and `z.string()` accept any value of the
right shape. -/
def taskSchemaAccepts (schemaNow : Int) (input : TaskFormInput) : Bool :=
  decide (1 ≤ input.title.length) && decide (input.title.length ≤ 255) &&
  decide (input.description.length ≤ 1000) &&
  decide (schemaNow ≤ input.deadline) &&
  decide (1 ≤ input.priority) && decide (input.priority ≤ 5) &&
  decide (1 ≤ input.estimated_duration)

/-- The acceptance condition exactly as claim C8 states it: deadline strictly
in the future and priority an integer (`.den = 1`) between 1 and 5. -/
def claimedAccepts (now : Int) (input : TaskFormInput) : Prop :=
  1 ≤ input.title.length ∧ input.title.length ≤ 255 ∧
  input.description.length ≤ 1000 ∧
  now < input.deadline ∧
  input.priority.den = 1 ∧ 1 ≤ input.priority ∧ input.priority ≤ 5 ∧
  1 ≤ input.estimated_duration

instance (now : Int) (input : TaskFormInput) : Decidable (claimedAccepts now input) := by
  unfold claimedAccepts
  infer_instance

/-- Counterexample to C8 as stated: an input whose deadline equals the
schema's reference time (so not strictly in the future) and whose priority is
5/2 (not an integer) is nevertheless accepted by the form's schema. -/
theorem c8_counterexample :
    let input : TaskFormInput :=
      { title := "a", description := "", deadline := 1000,
        priority := ⟨5, 2, by decide, by decide⟩,
        estimated_duration := 1, tags := [],
        is_recurring := false, recurrence_pattern := "none" }
    taskSchemaAccepts 1000 input = true ∧ ¬ claimedAccepts 1000 input := by
  constructor
  · decide
  · decide

/-- Claim C8 (amended): the task form schema accepts an input iff the title is
non-empty and at most 255 characters, the description at most 1000 characters,
the deadline at or after the schema's reference time (inclusive comparison,
against the time the form module loaded rather than submission time), the
priority a number between 1 and 5 (not necessarily an integer), and the
estimated duration at least 1 minute. -/
theorem c8_schema_acceptance (schemaNow : Int) (input : TaskFormInput) :
    taskSchemaAccepts schemaNow input = true ↔
      (1 ≤ input.title.length ∧ input.title.length ≤ 255 ∧
       input.description.length ≤ 1000 ∧
       schemaNow ≤ input.deadline ∧
       1 ≤ input.priority ∧ input.priority ≤ 5 ∧
       1 ≤ input.estimated_duration) := by
  simp [taskSchemaAccepts, and_assoc]

/-- Witness for C8 (amended): a concrete valid input is accepted. -/
theorem c8_witness :
    taskSchemaAccepts 1000
      { title := "write report", description := "quarterly",
        deadline := 5000, priority := 3, estimated_duration := 60,
        tags := ["work"], is_recurring := false,
        recurrence_pattern := "none" } = true :=
  (c8_schema_acceptance 1000 _).mpr (by decide)

/-! ### Frontend: derived task fields (Home transform) -/

/-- A task as returned by the backend API, with the fields the Home transform
reads (src/unnamed/part_002 lines 47-70); `description` and `tags` may be
absent. Timestamps are epoch milliseconds. -/
structure ApiTask where
  id : Nat
  title : String
  description : Option String
  deadline : Int
  status : TaskStatus
  priority : Nat
  estimated_duration : Nat
  tags : Option (List String)
  created_at : Int
  updated_at : Int
deriving DecidableEq, Repr

/-- A task as rendered by the frontend, with the derived fields
(src/frontend/types/task.ts plus the Home transform). -/
structure FrontendTask where
  id : Nat
  title : String
  description : String
  deadline : Int
  status : TaskStatus
  priority : Nat
  estimated_duration : Nat
  tags : List String
  created_at : Int
  updated_at : Int
  is_overdue : Bool
  time_until_deadline : ℚ
  completion_rate : ℚ
deriving DecidableEq, Repr

/-- The Home page task transform (src/unnamed/part_002 lines 47-70):
`timeUntilDeadline = Math.max(0, deadline.getTime() - now.getTime()) / 1000`,
`isOverdue = deadline < now && apiTask.status === 'ongoing'`,
`completionRate = apiTask.status === 'success' ? 100 : 0`, with
`description || ''` and `tags || []` defaulting. -/
def transformTask (now : Int) (t : ApiTask) : FrontendTask :=
  { id := t.id
    title := t.title
    description := t.description.getD ""
    deadline := t.deadline
    status := t.status
    priority := t.priority
    estimated_duration := t.estimated_duration
    tags := t.tags.getD []
    created_at := t.created_at
    updated_at := t.updated_at
    is_overdue := decide (t.deadline < now) && decide (t.status = TaskStatus.ongoing)
    time_until_deadline := (max 0 ((t.deadline : ℚ) - (now : ℚ))) / 1000
    completion_rate := if t.status = TaskStatus.success then 100 else 0 }

/-- Claim C9: for every task rendered by the Home page, `is_overdue` holds
exactly when deadline < now and status is ongoing; `time_until_deadline` is
max(0, deadline − now) converted from milliseconds to seconds, hence never
negative; and `completion_rate` is 100 for success and 0 otherwise. -/
theorem c9_derived_fields (now : Int) (t : ApiTask) :
    ((transformTask now t).is_overdue = true ↔
      (t.deadline < now ∧ t.status = TaskStatus.ongoing)) ∧
    (transformTask now t).time_until_deadline =
      (max 0 ((t.deadline : ℚ) - (now : ℚ))) / 1000 ∧
    0 ≤ (transformTask now t).time_until_deadline ∧
    (transformTask now t).completion_rate =
      (if t.status = TaskStatus.success then 100 else 0) := by
  refine ⟨?_, rfl, ?_, rfl⟩
  · simp [transformTask]
  · show (0 : ℚ) ≤ (max 0 ((t.deadline : ℚ) - (now : ℚ))) / 1000
    exact div_nonneg (le_max_left 0 _) (by norm_num)

/-! ### Frontend: analytics status buckets -/

/-- Status bucket count, as computed by Analytics `statusData`
(src/frontend/components/Analytics.tsx lines 26-30) and the per-column
counters of the tasks tab (`tasks.filter(t => t.status === s).length`,
src/frontend/components/TaskList.tsx Dashboard half). -/
def statusCount (tasks : List FrontendTask) (s : TaskStatus) : Nat :=
  (tasks.filter (fun t => decide (t.status = s))).length

/-- The Analytics completion rate (src/frontend/components/Analytics.tsx
line 64): `tasks.length > 0 ? (success count / tasks.length) * 100 : 0`. -/
def completionRate (tasks : List FrontendTask) : ℚ :=
  if 0 < tasks.length then
    ((statusCount tasks TaskStatus.success : ℚ) / (tasks.length : ℚ)) * 100
  else 0

/-- Claim C10: the three status buckets partition any task list — their counts
sum to the total — and the completion rate 100 x (success / total) lies
between 0 and 100 inclusive, and is 0 for the empty list. -/
theorem c10_buckets_partition (tasks : List FrontendTask) :
    statusCount tasks TaskStatus.ongoing + statusCount tasks TaskStatus.success +
      statusCount tasks TaskStatus.failure = tasks.length ∧
    0 ≤ completionRate tasks ∧ completionRate tasks ≤ 100 ∧
    completionRate [] = 0 := by
  refine ⟨?_, ?_, ?_, rfl⟩
  · induction tasks with
    | nil => rfl
    | cons t ts ih =>
      cases h : t.status <;>
        simp [statusCount, List.filter_cons, h] at ih ⊢ <;> omega
  · unfold completionRate
    split
    · have h0 : (0 : ℚ) ≤ (statusCount tasks TaskStatus.success : ℚ) := by
        exact_mod_cast Nat.zero_le _
      have h1 : (0 : ℚ) ≤ (tasks.length : ℚ) := by
        exact_mod_cast Nat.zero_le _
      exact mul_nonneg (div_nonneg h0 h1) (by norm_num)
    · exact le_refl 0
  · unfold completionRate
    split
    · next hlen =>
      have hle : (statusCount tasks TaskStatus.success : ℚ) ≤ (tasks.length : ℚ) := by
        exact_mod_cast List.length_filter_le _ tasks
      have hpos : (0 : ℚ) < (tasks.length : ℚ) := by exact_mod_cast hlen
      have h1 : (statusCount tasks TaskStatus.success : ℚ) / (tasks.length : ℚ) ≤ 1 :=
        (div_le_one hpos).mpr hle
      have h2 := mul_le_mul_of_nonneg_right h1 (by norm_num : (0 : ℚ) ≤ 100)
      simpa using h2
    · norm_num

end SmartTodo
